import Mathlib

/-
Verification of the PR review bot (scripts/pr_review_bot.py).

The script is sequential orchestration of external processes plus one HTTP
call.  We embed it shallowly: the ambient system is a pure oracle mapping
each shell command line to its outcome (exit code / stdout / stderr, or a
raised exception), and the HTTP client is a pure oracle mapping the request
URL and body to a response or a raised exception.  All Python string
operations used by the script (strip, or, join, endswith, splitlines) are
modelled explicitly on the character lists underlying Lean strings.
-/

/-! ## Python string primitives -/

/-- Whitespace characters recognised by Python str.strip (space, tab,
newline, carriage return, vertical tab, form feed). -/
def isPySpace (c : Char) : Bool :=
  c = ' ' || c = '\t' || c = '\n' || c = '\r' || c = Char.ofNat 11 || c = Char.ofNat 12

/-- Strip leading and trailing whitespace from a character list. -/
def stripList (l : List Char) : List Char :=
  ((l.dropWhile isPySpace).reverse.dropWhile isPySpace).reverse

/-- Python str.strip(): remove leading and trailing whitespace. -/
def pyStrip (s : String) : String :=
  ⟨stripList s.data⟩

/-- Python `a or b` on strings: `a` when `a` is non-empty (truthy), else `b`. -/
def pyOr (a b : String) : String :=
  if a = "" then b else a

/-- Python sep.join(list). -/
def pyJoin (sep : String) : List String → String
  | [] => ""
  | [x] => x
  | x :: xs => x ++ sep ++ pyJoin sep xs

/-- Python s.endswith(suf). -/
def pyEndsWith (s suf : String) : Bool :=
  suf.data.isSuffixOf s.data

/-! ## External command oracle and run_cmd -/

/-- Outcome of executing one shell command line: either the process
completes with an exit code, stdout and stderr, or the invocation raises
(timeout or any other exception). -/
inductive RunOutcome where
  | completed (code : Int) (stdout : String) (stderr : String)
  | raised (msg : String)
deriving DecidableEq, Repr

/-- The ambient system: what each shell command line does when executed. -/
def Exec : Type := String → RunOutcome

/-- run_cmd from the script: run the command, return
(returncode, stdout.strip(), stderr.strip()); on any exception return
(1, "", "Exception: " followed by the exception text). -/
def runCmd (ex : Exec) (cmd : String) : Int × String × String :=
  match ex cmd with
  | .completed c o e => (c, pyStrip o, pyStrip e)
  | .raised m => (1, "", "Exception: " ++ m)

/-- md_section from the script: a Markdown section with the title as an
h3 heading and the stripped body in a fenced code block, or the empty
string when the stripped body is empty. -/
def md_section (title body : String) : String :=
  if pyStrip body = "" then ""
  else "\n### " ++ title ++ "\n\n```\n" ++ pyStrip body ++ "\n```\n"

/-! ## Diff resolver -/

/-- Split a character list at newline characters, with no entry for a
final newline (the behaviour of Python splitlines on its own output
domain here: the diff output has only newline line terminators). -/
def splitNl : List Char → List (List Char)
  | [] => []
  | c :: cs =>
    if c = '\n' then [] :: splitNl cs
    else
      match splitNl cs with
      | [] => [[c]]
      | x :: xs => (c :: x) :: xs

/-- Python s.splitlines() on newline-terminated text. -/
def pySplitLines (s : String) : List String :=
  (splitNl s.data).map fun l => ⟨l⟩

/-- Command line of the fetch step of get_changed_files. -/
def fetch_cmd (base_ref : String) : String :=
  "git fetch origin " ++ base_ref

/-- Command line of the diff step of get_changed_files. -/
def diff_cmd (base_ref : String) : String :=
  "git diff --name-only origin/" ++ base_ref ++ "...HEAD"

/-- get_changed_files from the script.  The fetch is executed but its
result is discarded; only the diff's exit code and output matter.  Python
splitlines is modelled as splitting on the newline character (the diff
output contains no other line terminators once stripped). -/
def get_changed_files (ex : Exec) (base_ref : String) : List String :=
  let _fetch := runCmd ex (fetch_cmd base_ref)
  let r := runCmd ex (diff_cmd base_ref)
  if r.1 ≠ 0 ∨ pyStrip r.2.1 = "" then []
  else ((pySplitLines r.2.1).filter (fun line => pyStrip line ≠ "")).map pyStrip

/-! ## HTTP publisher -/

/-- Outcome of the one HTTP POST: either a response with a status code and
body text, or a raised request-level exception. -/
inductive HttpResult where
  | resp (status : Nat) (text : String)
  | exnRaised (msg : String)
deriving DecidableEq, Repr

/-- The HTTP collaborator: maps the request URL and JSON comment body to
an outcome. -/
def Http : Type := String → String → HttpResult

/-- True when the outcome is a response (the call did not raise). -/
def HttpResult.isResp : HttpResult → Bool
  | .resp _ _ => true
  | .exnRaised _ => false

/-- URL built by post_pr_comment. -/
def comment_url (repo : String) (pr_number : Int) : String :=
  "https://api.github.com/repos/" ++ repo ++ "/issues/" ++ toString pr_number ++ "/comments"

/-- Warning line printed by post_pr_comment on a non-2xx/3xx response. -/
def warn_line (status : Nat) (text : String) : String :=
  "[WARN] Failed to post PR comment: " ++ toString status ++ " " ++ text

/-- post_pr_comment from the script: POST the body; on a response with
status at least 300 print a warning; a request-level exception is not
caught and propagates to the caller.  The result is the list of lines
printed, or the propagated exception. -/
def post_pr_comment (http : Http) (repo : String) (pr_number : Int)
    (token : String) (body : String) : Except String (List String) :=
  let _headers := token
  match http (comment_url repo pr_number) body with
  | .resp status text =>
      if 300 ≤ status then .ok [warn_line status text] else .ok []
  | .exnRaised m => .error m

/-! ## Event-description file -/

/-- Contents of the pull_request object as far as the script reads it:
the value of its "number" field, when present. -/
structure PullReq where
  number : Option Int
deriving DecidableEq, Repr

/-- State of the GitHub event-description file as seen by
get_pr_number_from_event: the environment variable is unset or the path is
not a file; the file exists but json.load raises on its content; or the
file parses, with or without a truthy top-level pull_request object. -/
inductive EventState where
  | noFile
  | badJson (msg : String)
  | json (pull_request : Option PullReq)
deriving DecidableEq, Repr

/-- get_pr_number_from_event from the script: missing path or missing
pull_request object yield no number; an unparseable file makes json.load
raise, and that exception is not caught. -/
def get_pr_number_from_event : EventState → Except String (Option Int)
  | .noFile => .ok none
  | .badJson m => .error m
  | .json none => .ok none
  | .json (some pr) => .ok pr.number

/-! ## Checkers -/

/-- Result of one checker: the joined Markdown report, the failure count,
and (instrumentation) the list of external command lines invoked, in
order. -/
structure CheckResult where
  md : String
  failures : Nat
  invoked : List String
deriving DecidableEq, Repr

/-- Extension filter of the Python checker. -/
def isPyFile (f : String) : Bool :=
  pyEndsWith f ".py"

/-- Extension filter of the script-language checker. -/
def isJsFile (f : String) : Bool :=
  pyEndsWith f ".js" || pyEndsWith f ".jsx" || pyEndsWith f ".ts" || pyEndsWith f ".tsx"

/-- Extension filter of the native-language checker. -/
def isCppFile (f : String) : Bool :=
  pyEndsWith f ".cpp" || pyEndsWith f ".cc" || pyEndsWith f ".cxx" ||
    pyEndsWith f ".h" || pyEndsWith f ".hpp"

/-- Command line of the flake8 sub-check. -/
def flake8_cmd (py_files : List String) : String :=
  "flake8 " ++ pyJoin " " py_files

/-- Command line of the black sub-check. -/
def black_cmd (py_files : List String) : String :=
  "black --check " ++ pyJoin " " py_files

/-- Command line of the pytest sub-check. -/
def pytest_cmd : String :=
  "pytest -q"

/-- check_python from the script.  testsDirExists models
Path("tests").exists(). -/
def check_python (ex : Exec) (testsDirExists : Bool) (files : List String) : CheckResult :=
  let py_files := files.filter isPyFile
  if py_files = [] then ⟨"", 0, []⟩
  else
    let r1 := runCmd ex (flake8_cmd py_files)
    let sec1 := if r1.1 ≠ 0 then md_section "Python flake8" (pyOr r1.2.1 r1.2.2)
                else "✅ flake8: no issues found.\n"
    let f1 : Nat := if r1.1 ≠ 0 then 1 else 0
    let r2 := runCmd ex (black_cmd py_files)
    let sec2 := if r2.1 ≠ 0 then md_section "Python black --check" (pyOr r2.2.1 r2.2.2)
                else "✅ black --check: formatted correctly.\n"
    let f2 : Nat := if r2.1 ≠ 0 then 1 else 0
    if testsDirExists then
      let r3 := runCmd ex pytest_cmd
      let sec3 := if r3.1 ≠ 0 then md_section "pytest" (pyOr r3.2.1 r3.2.2)
                  else "✅ pytest: all tests passed.\n"
      let f3 : Nat := if r3.1 ≠ 0 then 1 else 0
      ⟨pyJoin "\n" [sec1, sec2, sec3], f1 + f2 + f3,
        [flake8_cmd py_files, black_cmd py_files, pytest_cmd]⟩
    else
      ⟨pyJoin "\n" [sec1, sec2], f1 + f2, [flake8_cmd py_files, black_cmd py_files]⟩

/-- Command line of the ESLint sub-check. -/
def eslint_cmd (js_files : List String) : String :=
  "npx --yes eslint " ++ pyJoin " " js_files

/-- Command line of the Prettier sub-check. -/
def prettier_cmd (js_files : List String) : String :=
  "npx --yes prettier -c " ++ pyJoin " " js_files

/-- check_js from the script.  packageJsonExists models
Path("package.json").exists(); without the manifest the checker
short-circuits even when matching files exist. -/
def check_js (ex : Exec) (packageJsonExists : Bool) (files : List String) : CheckResult :=
  let js_files := files.filter isJsFile
  if js_files = [] ∨ packageJsonExists = false then ⟨"", 0, []⟩
  else
    let r1 := runCmd ex (eslint_cmd js_files)
    let sec1 := if r1.1 ≠ 0 then md_section "ESLint" (pyOr r1.2.1 r1.2.2)
                else "✅ ESLint: no issues found.\n"
    let f1 : Nat := if r1.1 ≠ 0 then 1 else 0
    let r2 := runCmd ex (prettier_cmd js_files)
    let sec2 := if r2.1 ≠ 0 then md_section "Prettier --check" (pyOr r2.2.1 r2.2.2)
                else "✅ Prettier: formatting OK.\n"
    let f2 : Nat := if r2.1 ≠ 0 then 1 else 0
    ⟨pyJoin "\n" [sec1, sec2], f1 + f2, [eslint_cmd js_files, prettier_cmd js_files]⟩

/-- Command line of the cpplint sub-check. -/
def cpplint_cmd (cpp_files : List String) : String :=
  "cpplint " ++ pyJoin " " cpp_files

/-- Command line of the per-file clang-format sub-check. -/
def clang_format_cmd (f : String) : String :=
  "clang-format --dry-run --Werror " ++ f

/-- check_cpp from the script.  The second sub-check runs clang-format on
every filtered file, collects those whose invocation exits non-zero, and
reports that list of file names as one section with one failure. -/
def check_cpp (ex : Exec) (files : List String) : CheckResult :=
  let cpp_files := files.filter isCppFile
  if cpp_files = [] then ⟨"", 0, []⟩
  else
    let r1 := runCmd ex (cpplint_cmd cpp_files)
    let sec1 := if r1.1 ≠ 0 then md_section "cpplint" (pyOr r1.2.1 r1.2.2)
                else "✅ cpplint: no issues found.\n"
    let f1 : Nat := if r1.1 ≠ 0 then 1 else 0
    let changed := cpp_files.filter (fun f => (runCmd ex (clang_format_cmd f)).1 ≠ 0)
    let sec2 := if changed ≠ [] then
                  md_section "clang-format --dry-run --Werror" (pyJoin "\n" changed)
                else "✅ clang-format: formatting OK.\n"
    let f2 : Nat := if changed ≠ [] then 1 else 0
    ⟨pyJoin "\n" [sec1, sec2], f1 + f2,
      cpplint_cmd cpp_files :: cpp_files.map clang_format_cmd⟩

/-! ## Report assembler and entry point -/

/-- Banner appended when some check failed. -/
def fail_banner : String :=
  "\n\n❌ Some checks failed. Please address the issues above."

/-- Banner appended when all checks passed. -/
def success_banner : String :=
  "\n\n✅ All checks passed. Nice work!"

/-- Report assembly from main: header with the first 50 changed files,
the three checkers' Markdown in fixed order, then exactly one banner
chosen by whether total_fail is positive. -/
def review_body (files : List String) (python_md js_md cpp_md : String)
    (total_fail : Nat) : String :=
  let header := "## Automated Code Review Summary\n\nChanged files:\n- "
      ++ pyJoin "\n- " (files.take 50)
  let body := header ++ "\n\n" ++ python_md ++ js_md ++ cpp_md
  if total_fail > 0 then body ++ fail_banner else body ++ success_banner

/-- Summary printed (and possibly posted) when no changed files are found. -/
def skip_message : String :=
  "No changed files detected or unable to compute diff. Skipping checks."

/-- Process environment and working-directory facts read by main. -/
structure Env where
  repo : Option String
  baseRefEnv : Option String
  token : Option String
  event : EventState
  testsDir : Bool
  packageJson : Bool

/-- Python truthiness gate `if repo and token and pr_number`: all three
present and non-falsy (non-empty strings, non-zero number). -/
def publishGate : Option String → Option String → Option Int →
    Option (String × String × Int)
  | some r, some t, some n =>
      if r = "" ∨ t = "" ∨ n = 0 then none else some (r, t, n)
  | _, _, _ => none

/-- Observable result of a run that terminates normally: the process exit
code and the lines printed to standard output, in order. -/
structure RunResult where
  exitCode : Nat
  printed : List String
deriving DecidableEq, Repr

/-- main from the script.  A normally terminating run yields a RunResult;
an uncaught exception (unparseable event file, or a raised comment POST)
yields the exception text.  In the empty-file branch the summary is
printed before the post; otherwise the post happens before the body is
printed, and the exit code is 1 exactly when total_fail is positive. -/
def main_run (env : Env) (ex : Exec) (http : Http) : Except String RunResult :=
  match get_pr_number_from_event env.event with
  | .error m => .error m
  | .ok pr_number =>
    let base_ref := env.baseRefEnv.getD "main"
    let files := get_changed_files ex base_ref
    if files = [] then
      match publishGate env.repo env.token pr_number with
      | some (r, t, n) =>
        match post_pr_comment http r n t skip_message with
        | .error m => .error m
        | .ok logs => .ok ⟨0, skip_message :: logs⟩
      | none => .ok ⟨0, [skip_message]⟩
    else
      let pyr := check_python ex env.testsDir files
      let jsr := check_js ex env.packageJson files
      let cppr := check_cpp ex files
      let total := pyr.failures + jsr.failures + cppr.failures
      let body := review_body files pyr.md jsr.md cppr.md total
      match publishGate env.repo env.token pr_number with
      | some (r, t, n) =>
        match post_pr_comment http r n t body with
        | .error m => .error m
        | .ok logs => .ok ⟨if total > 0 then 1 else 0, logs ++ [body]⟩
      | none => .ok ⟨if total > 0 then 1 else 0, [body]⟩

/-- Exit code of a run: none when the run aborted with an uncaught
exception. -/
def exitCodeOf : Except String RunResult → Option Nat
  | .ok r => some r.exitCode
  | .error _ => none

/-- Total failure count summed over the three checkers, on the changed
files the run would compute. -/
def total_failures (env : Env) (ex : Exec) : Nat :=
  let files := get_changed_files ex (env.baseRefEnv.getD "main")
  (check_python ex env.testsDir files).failures
    + (check_js ex env.packageJson files).failures
    + (check_cpp ex files).failures

/-- An HTTP collaborator that always returns a response (never raises). -/
def RespOnly (http : Http) : Prop :=
  ∀ u b, (http u b).isResp = true

/-! ## Helper lemmas -/

/-- A string whose right component is non-empty is non-empty. -/
theorem str_append_right_ne (s t : String) (h : t ≠ "") : s ++ t ≠ "" := by
  intro he
  apply h
  have hd := congrArg String.data he
  rw [String.data_append] at hd
  exact String.ext (List.append_eq_nil.mp hd).2

/-- If the stripped list is empty, every character was whitespace. -/
theorem stripList_eq_nil {l : List Char} (h : stripList l = []) :
    ∀ c ∈ l, isPySpace c = true := by
  unfold stripList at h
  rw [List.reverse_eq_nil_iff, List.dropWhile_eq_nil_iff] at h
  intro c hc
  rcases List.mem_append.mp (by rw [List.takeWhile_append_dropWhile] at *; exact hc :
      c ∈ l.takeWhile isPySpace ++ l.dropWhile isPySpace) with h1 | h2
  · exact List.mem_takeWhile_imp h1
  · exact h c (List.mem_reverse.mpr h2)

/-- pyStrip of a string containing a non-whitespace character is
non-empty. -/
theorem pyStrip_ne_empty {s : String} {c : Char} (hc : c ∈ s.data)
    (hns : isPySpace c = false) : pyStrip s ≠ "" := by
  intro he
  have hd := congrArg String.data he
  have : stripList s.data = [] := hd
  have := stripList_eq_nil this c hc
  rw [hns] at this
  exact Bool.false_ne_true this

/-- md_section on a body with a non-blank strip is the full Markdown
section, which is non-empty. -/
theorem md_section_of_ne {title body : String} (h : pyStrip body ≠ "") :
    md_section title body =
      "\n### " ++ title ++ "\n\n```\n" ++ pyStrip body ++ "\n```\n" ∧
    md_section title body ≠ "" := by
  unfold md_section
  rw [if_neg h]
  exact ⟨rfl, str_append_right_ne _ _ (by decide)⟩

/-- md_section is empty exactly when the stripped body is empty. -/
theorem md_section_empty_iff (title body : String) :
    md_section title body = "" ↔ pyStrip body = "" := by
  unfold md_section
  split
  · simp [*]
  · rename_i h
    exact ⟨fun he => absurd he (str_append_right_ne _ _ (by decide)), fun he => absurd he h⟩

/-- The checkers do nothing on an empty file list. -/
theorem check_python_nil (ex : Exec) (t : Bool) : check_python ex t [] = ⟨"", 0, []⟩ := rfl

/-- The script-language checker does nothing on an empty file list. -/
theorem check_js_nil (ex : Exec) (p : Bool) : check_js ex p [] = ⟨"", 0, []⟩ := by
  unfold check_js
  simp

/-- The native-language checker does nothing on an empty file list. -/
theorem check_cpp_nil (ex : Exec) : check_cpp ex [] = ⟨"", 0, []⟩ := rfl

/-- With no changed files, the three checkers find zero failures. -/
theorem total_failures_of_empty {env : Env} {ex : Exec}
    (h : get_changed_files ex (env.baseRefEnv.getD "main") = []) :
    total_failures env ex = 0 := by
  unfold total_failures
  rw [h]
  simp [check_python_nil, check_js_nil, check_cpp_nil]

/-! ## Claim C9 -/

/-- Claim C9: on any execution exception (including timeout), runCmd
returns a non-zero exit code, an empty output field and an error field
describing the exception, and this flows into Markdown section
construction exactly like a normal non-zero exit, producing a non-empty
failed section. -/
theorem runCmd_exception_semantics (ex : Exec) (cmd m title : String)
    (h : ex cmd = .raised m) :
    runCmd ex cmd = (1, "", "Exception: " ++ m) ∧
    (runCmd ex cmd).1 ≠ 0 ∧
    md_section title (pyOr (runCmd ex cmd).2.1 (runCmd ex cmd).2.2) =
      "\n### " ++ title ++ "\n\n```\n" ++ pyStrip ("Exception: " ++ m) ++ "\n```\n" ∧
    md_section title (pyOr (runCmd ex cmd).2.1 (runCmd ex cmd).2.2) ≠ "" := by
  have he : runCmd ex cmd = (1, "", "Exception: " ++ m) := by
    unfold runCmd
    rw [h]
  have hstrip : pyStrip ("Exception: " ++ m) ≠ "" := by
    apply pyStrip_ne_empty (c := 'E')
    · rw [String.data_append]
      exact List.mem_append_left _ (by decide)
    · decide
  have hor : pyOr (runCmd ex cmd).2.1 (runCmd ex cmd).2.2 = "Exception: " ++ m := by
    rw [he]
    unfold pyOr
    simp
  refine ⟨he, ?_, ?_, ?_⟩
  · rw [he]
    simp
  · rw [hor]
    exact (md_section_of_ne hstrip).1
  · rw [hor]
    exact (md_section_of_ne hstrip).2

/-- Execution oracle on which every invocation raises. -/
def exRaise : Exec := fun _ => .raised "boom"

/-- Witness for C9 at a concrete command and exception. -/
theorem runCmd_exception_semantics_witness :
    runCmd exRaise "flake8 a.py" = (1, "", "Exception: " ++ "boom") ∧
    (runCmd exRaise "flake8 a.py").1 ≠ 0 ∧
    md_section "Python flake8"
        (pyOr (runCmd exRaise "flake8 a.py").2.1 (runCmd exRaise "flake8 a.py").2.2) =
      "\n### " ++ "Python flake8" ++ "\n\n```\n" ++ pyStrip ("Exception: " ++ "boom") ++ "\n```\n" ∧
    md_section "Python flake8"
        (pyOr (runCmd exRaise "flake8 a.py").2.1 (runCmd exRaise "flake8 a.py").2.2) ≠ "" :=
  runCmd_exception_semantics exRaise "flake8 a.py" "boom" "Python flake8" rfl

/-! ## Claim C2 -/

/-- Claim C2: a checker whose extension filter matches no file returns
the empty report with zero failures and invokes no external command; the
script-language checker also short-circuits identically whenever
package.json is absent, even if matching files exist. -/
theorem checker_guard_no_invocation (ex : Exec) (tests pkg : Bool) (files : List String) :
    ((∀ f ∈ files, isPyFile f = false) → check_python ex tests files = ⟨"", 0, []⟩) ∧
    ((∀ f ∈ files, isJsFile f = false) → check_js ex pkg files = ⟨"", 0, []⟩) ∧
    (check_js ex false files = ⟨"", 0, []⟩) ∧
    ((∀ f ∈ files, isCppFile f = false) → check_cpp ex files = ⟨"", 0, []⟩) := by
  refine ⟨?_, ?_, ?_, ?_⟩
  · intro h
    have hf : files.filter isPyFile = [] :=
      List.filter_eq_nil_iff.mpr (fun a ha => by simp [h a ha])
    simp [check_python, hf]
  · intro h
    have hf : files.filter isJsFile = [] :=
      List.filter_eq_nil_iff.mpr (fun a ha => by simp [h a ha])
    simp [check_js, hf]
  · simp [check_js]
  · intro h
    have hf : files.filter isCppFile = [] :=
      List.filter_eq_nil_iff.mpr (fun a ha => by simp [h a ha])
    simp [check_cpp, hf]

/-- Witness for C2: a TypeScript file is ignored by the Python and
native-language checkers, and by the script-language checker when the
manifest is missing; a text file is ignored by the script-language
checker even with the manifest present. -/
theorem checker_guard_no_invocation_witness :
    check_python exRaise true ["x.ts"] = ⟨"", 0, []⟩ ∧
    check_js exRaise true ["notes.txt"] = ⟨"", 0, []⟩ ∧
    check_js exRaise false ["x.ts"] = ⟨"", 0, []⟩ ∧
    check_cpp exRaise ["x.ts"] = ⟨"", 0, []⟩ :=
  ⟨(checker_guard_no_invocation exRaise true true ["x.ts"]).1 (by decide),
   (checker_guard_no_invocation exRaise true true ["notes.txt"]).2.1 (by decide),
   (checker_guard_no_invocation exRaise true false ["x.ts"]).2.2.1,
   (checker_guard_no_invocation exRaise true true ["x.ts"]).2.2.2 (by decide)⟩

/-! ## Claim C10 -/

/-- Claim C10: each checker's failure count is bounded by its number of
sub-checks: at most 3 for the Python checker (at most 2 without a tests
directory), and at most 2 for the script-language and native-language
checkers; counts are natural numbers, hence non-negative. -/
theorem failure_count_bounds (ex : Exec) (tests pkg : Bool) (files : List String) :
    (check_python ex tests files).failures ≤ 3 ∧
    (check_python ex false files).failures ≤ 2 ∧
    (check_js ex pkg files).failures ≤ 2 ∧
    (check_cpp ex files).failures ≤ 2 := by
  refine ⟨?_, ?_, ?_, ?_⟩
  · simp only [check_python]
    split_ifs <;> simp
  · simp only [check_python]
    split_ifs <;> simp_all
  · simp only [check_js]
    split_ifs <;> simp
  · simp only [check_cpp]
    split_ifs <;> simp

/-! ## Claim C8 -/

/-- Claim C8: the assembled report depends on the changed-file list only
through its first 50 entries, which are listed as the header bullet list;
longer inputs are silently truncated with no further notice. -/
theorem header_truncates_at_50 (files : List String) (pmd jmd cpmd : String) (total : Nat) :
    review_body files pmd jmd cpmd total = review_body (files.take 50) pmd jmd cpmd total ∧
    (files.take 50).length ≤ 50 := by
  constructor
  · simp [review_body, List.take_take]
  · simp [List.length_take]

/-! ## Claim C7 -/

/-- A string ends with another: the suffix relation on the underlying
character lists. -/
def strEndsWith (s t : String) : Prop :=
  t.data <:+ s.data

/-- Appending a banner makes the report end with it. -/
theorem strEndsWith_append (s t : String) : strEndsWith (s ++ t) t := by
  unfold strEndsWith
  rw [String.data_append]
  exact List.suffix_append _ _

/-- A non-empty suffix determines the last element. -/
theorem getLast?_of_suffix {l1 l2 : List Char} (h : l1 <:+ l2) (hne : l1 ≠ []) :
    l2.getLast? = l1.getLast? := by
  obtain ⟨t, rfl⟩ := h
  exact List.getLast?_append_of_ne_nil t hne

/-- No string ends with both banners: their last characters differ. -/
theorem not_both_banners (s : String) :
    ¬(strEndsWith s fail_banner ∧ strEndsWith s success_banner) := by
  rintro ⟨h1, h2⟩
  have e1 := getLast?_of_suffix h1 (by decide)
  have e2 := getLast?_of_suffix h2 (by decide)
  rw [e1] at e2
  revert e2
  decide

/-- Claim C7: the assembled report ends in the failure banner exactly
when the summed failure count of the three checkers is positive, in the
success banner exactly when it is zero, and never in both. -/
theorem report_banner_exclusive (files : List String) (pmd jmd cpmd : String)
    (pf jf cf : Nat) :
    (strEndsWith (review_body files pmd jmd cpmd (pf + jf + cf)) fail_banner ↔
      0 < pf + jf + cf) ∧
    (strEndsWith (review_body files pmd jmd cpmd (pf + jf + cf)) success_banner ↔
      pf + jf + cf = 0) ∧
    ¬(strEndsWith (review_body files pmd jmd cpmd (pf + jf + cf)) fail_banner ∧
      strEndsWith (review_body files pmd jmd cpmd (pf + jf + cf)) success_banner) := by
  refine ⟨?_, ?_, not_both_banners _⟩
  · constructor
    · intro h
      by_contra hn
      have h0 : pf + jf + cf = 0 := by omega
      have hsucc : strEndsWith (review_body files pmd jmd cpmd (pf + jf + cf)) success_banner := by
        simp only [review_body, h0]
        exact strEndsWith_append _ _
      exact not_both_banners _ ⟨h, hsucc⟩
    · intro h
      simp only [review_body, if_pos h]
      exact strEndsWith_append _ _
  · constructor
    · intro h
      by_contra hn
      have hp : 0 < pf + jf + cf := by omega
      have hfail : strEndsWith (review_body files pmd jmd cpmd (pf + jf + cf)) fail_banner := by
        simp only [review_body, if_pos hp]
        exact strEndsWith_append _ _
      exact not_both_banners _ ⟨hfail, h⟩
    · intro h0
      simp only [review_body, h0]
      exact strEndsWith_append _ _

/-- Witness for C7 at concrete failure counts. -/
theorem report_banner_exclusive_witness :
    strEndsWith (review_body ["a.py"] "" "" "" (1 + 0 + 0)) fail_banner ∧
    strEndsWith (review_body ["a.py"] "" "" "" (0 + 0 + 0)) success_banner :=
  ⟨(report_banner_exclusive ["a.py"] "" "" "" 1 0 0).1.mpr (by decide),
   (report_banner_exclusive ["a.py"] "" "" "" 0 0 0).2.1.mpr (by decide)⟩

/-! ## Claim C6 -/

/-- Counterexample to C6 as stated: an oracle on which the fetch command
exits non-zero but the diff command succeeds with output.  The resolver
returns the diff's paths, not the empty list: the fetch's exit status is
discarded. -/
def exFetchFail : Exec := fun cmd =>
  if cmd = fetch_cmd "main" then .completed 1 "" "fatal: could not read from remote"
  else if cmd = diff_cmd "main" then .completed 0 "a.py" ""
  else .completed 0 "" ""

/-- Counterexample for C6: with the fetch exiting non-zero and the diff
succeeding, get_changed_files returns the diff's paths rather than the
empty list the claim requires. -/
theorem changed_files_fetch_ignored_cex :
    (runCmd exFetchFail (fetch_cmd "main")).1 ≠ 0 ∧
    get_changed_files exFetchFail "main" = ["a.py"] ∧
    get_changed_files exFetchFail "main" ≠ [] := by
  refine ⟨by decide, by decide, by decide⟩

/-- Claim C6 (amended): the resolver returns the empty list when the
diff command exits non-zero or its stripped output is empty; otherwise it
returns the diff output's lines, each stripped of surrounding whitespace,
with blank lines dropped.  The fetch command's outcome is ignored: any
two systems agreeing on the diff command produce the same result.  The
resolver is a total function into path lists and signals no error. -/
theorem changed_files_characterization (ex ex2 : Exec) (base : String) :
    (ex (diff_cmd base) = ex2 (diff_cmd base) →
      get_changed_files ex base = get_changed_files ex2 base) ∧
    ((runCmd ex (diff_cmd base)).1 ≠ 0 → get_changed_files ex base = []) ∧
    (pyStrip (runCmd ex (diff_cmd base)).2.1 = "" → get_changed_files ex base = []) ∧
    (get_changed_files ex base =
      if (runCmd ex (diff_cmd base)).1 ≠ 0 ∨ pyStrip (runCmd ex (diff_cmd base)).2.1 = ""
      then []
      else ((pySplitLines (runCmd ex (diff_cmd base)).2.1).filter
              (fun line => pyStrip line ≠ "")).map pyStrip) := by
  refine ⟨?_, ?_, ?_, rfl⟩
  · intro h
    unfold get_changed_files runCmd
    rw [h]
  · intro h
    unfold get_changed_files
    rw [if_pos (Or.inl h)]
  · intro h
    unfold get_changed_files
    rw [if_pos (Or.inr h)]

/-- Oracle for the C6 witness: fetch fails, diff succeeds with messy
whitespace. -/
def exDiffOk : Exec := fun cmd =>
  if cmd = fetch_cmd "dev" then .completed 1 "" ""
  else .completed 0 "a.py\n  b.cpp \n\n" ""

/-- Oracle agreeing with exDiffOk on the diff command but not on the
fetch command. -/
def exDiffOk2 : Exec := fun _ =>
  .completed 0 "a.py\n  b.cpp \n\n" ""

/-- Oracle on which the diff command fails. -/
def exDiffFail : Exec := fun _ =>
  .completed 128 "" "fatal: bad revision"

/-- Oracle on which the diff output strips to empty. -/
def exDiffBlank : Exec := fun _ =>
  .completed 0 "  \n " ""

/-- Witness for C6 at concrete oracles: fetch-independence, the two
empty cases, and the strip-and-drop-blanks behaviour. -/
theorem changed_files_characterization_witness :
    get_changed_files exDiffOk "dev" = get_changed_files exDiffOk2 "dev" ∧
    get_changed_files exDiffFail "dev" = [] ∧
    get_changed_files exDiffBlank "dev" = [] ∧
    get_changed_files exDiffOk "dev" = ["a.py", "b.cpp"] :=
  ⟨(changed_files_characterization exDiffOk exDiffOk2 "dev").1 (by decide),
   (changed_files_characterization exDiffFail exDiffFail "dev").2.1 (by decide),
   (changed_files_characterization exDiffBlank exDiffBlank "dev").2.2.1 (by decide),
   by decide⟩

/-! ## Claim C3 -/

/-- Oracle for the C3 counterexample: flake8 exits 1 printing nothing on
either stream; every other tool succeeds. -/
def exSilentFail : Exec := fun cmd =>
  if cmd = flake8_cmd ["a.py"] then .completed 1 "" ""
  else .completed 0 "" ""

/-- Counterexample for C3: a tool exiting non-zero with empty stdout and
stderr increments the failure counter by one, but the appended section is
md_section of an empty body, which is the empty string: the resulting
report holds no heading and no code block for the failing tool, only the
other tool's success line, contradicting "every failing tool contributes
exactly one failure and one non-empty failed section". -/
theorem silent_failure_empty_section_cex :
    (check_python exSilentFail false ["a.py"]).failures = 1 ∧
    md_section "Python flake8"
        (pyOr (runCmd exSilentFail (flake8_cmd ["a.py"])).2.1
              (runCmd exSilentFail (flake8_cmd ["a.py"])).2.2) = "" ∧
    (check_python exSilentFail false ["a.py"]).md =
      "\n✅ black --check: formatted correctly.\n" :=
  ⟨by decide, by decide, by decide⟩

/-- Claim C3 (amended): for each tool, on non-zero exit the checker
appends md_section of the tool's name and its captured stdout (stderr
when stdout is empty) and increments the failure counter by exactly one,
and on zero exit appends a success line; the appended md_section is the
heading-plus-fenced-code-block form exactly when the captured output is
non-blank, and the empty string otherwise. -/
theorem tool_section_characterization (ex : Exec) (tests : Bool) (files : List String)
    (h : files.filter isPyFile ≠ []) :
    (check_python ex tests files).failures =
        ((if (runCmd ex (flake8_cmd (files.filter isPyFile))).1 ≠ 0 then 1 else 0)
          + (if (runCmd ex (black_cmd (files.filter isPyFile))).1 ≠ 0 then 1 else 0))
        + (if tests then (if (runCmd ex pytest_cmd).1 ≠ 0 then 1 else 0) else 0) ∧
    (check_python ex tests files).md =
      pyJoin "\n"
        ((if (runCmd ex (flake8_cmd (files.filter isPyFile))).1 ≠ 0
          then md_section "Python flake8"
                 (pyOr (runCmd ex (flake8_cmd (files.filter isPyFile))).2.1
                       (runCmd ex (flake8_cmd (files.filter isPyFile))).2.2)
          else "✅ flake8: no issues found.\n")
         :: (if (runCmd ex (black_cmd (files.filter isPyFile))).1 ≠ 0
             then md_section "Python black --check"
                    (pyOr (runCmd ex (black_cmd (files.filter isPyFile))).2.1
                          (runCmd ex (black_cmd (files.filter isPyFile))).2.2)
             else "✅ black --check: formatted correctly.\n")
         :: (if tests
             then [if (runCmd ex pytest_cmd).1 ≠ 0
                   then md_section "pytest"
                          (pyOr (runCmd ex pytest_cmd).2.1 (runCmd ex pytest_cmd).2.2)
                   else "✅ pytest: all tests passed.\n"]
             else [])) ∧
    (∀ title body, md_section title body = "" ↔ pyStrip body = "") ∧
    (∀ title body, pyStrip body ≠ "" →
      md_section title body =
        "\n### " ++ title ++ "\n\n```\n" ++ pyStrip body ++ "\n```\n") := by
  refine ⟨?_, ?_, md_section_empty_iff, fun t b hb => (md_section_of_ne hb).1⟩
  · simp only [check_python, if_neg h]
    cases tests <;> simp
  · simp only [check_python, if_neg h]
    cases tests <;> simp

/-- Witness for C3 at a concrete oracle (every tool raises, hence every
tool fails) and a concrete section body. -/
theorem tool_section_characterization_witness :
    (check_python exRaise true ["b.py"]).failures =
        ((if (runCmd exRaise (flake8_cmd (["b.py"].filter isPyFile))).1 ≠ 0 then 1 else 0)
          + (if (runCmd exRaise (black_cmd (["b.py"].filter isPyFile))).1 ≠ 0 then 1 else 0))
        + (if true then (if (runCmd exRaise pytest_cmd).1 ≠ 0 then 1 else 0) else 0) ∧
    md_section "x" "hello" = "\n### " ++ "x" ++ "\n\n```\n" ++ pyStrip "hello" ++ "\n```\n" :=
  ⟨(tool_section_characterization exRaise true ["b.py"] (by decide)).1,
   (tool_section_characterization exRaise true ["b.py"] (by decide)).2.2.2 "x" "hello" (by decide)⟩

/-! ## Claim C4 -/

/-- Counterexample for C4: an unparseable event file does not degrade to
"no PR number" — json.load's exception is uncaught, so the lookup raises
instead of returning the no-number result. -/
theorem pr_number_unparseable_raises_cex :
    get_pr_number_from_event (.badJson "Expecting value: line 1 column 1 (char 0)") =
      .error "Expecting value: line 1 column 1 (char 0)" ∧
    get_pr_number_from_event (.badJson "Expecting value: line 1 column 1 (char 0)") ≠
      .ok none :=
  ⟨rfl, fun he => Except.noConfusion he⟩

/-- Claim C4 (amended): a missing event file or a missing top-level
pull-request object degrades to "no PR number", which suppresses comment
posting (the publish gate closes) but not the rest of the run; an
unparseable file instead raises, and the uncaught exception aborts the
whole run before any check executes. -/
theorem pr_number_lookup_behavior (m : String) (pr : PullReq) (env : Env)
    (ex : Exec) (http : Http) :
    get_pr_number_from_event .noFile = .ok none ∧
    get_pr_number_from_event (.json none) = .ok none ∧
    get_pr_number_from_event (.json (some pr)) = .ok pr.number ∧
    get_pr_number_from_event (.badJson m) = .error m ∧
    publishGate env.repo env.token none = none ∧
    (env.event = .badJson m → main_run env ex http = .error m) := by
  refine ⟨rfl, rfl, rfl, rfl, ?_, ?_⟩
  · cases env.repo <;> cases env.token <;> rfl
  · intro h
    unfold main_run
    rw [h]
    rfl

/-- An HTTP collaborator that accepts every request with 201. -/
def httpOk : Http := fun _ _ => .resp 201 "created"

/-- Environment whose event file exists but holds unparseable content. -/
def envBadJson : Env :=
  ⟨some "octo/repo", none, some "tok", .badJson "Expecting value", false, false⟩

/-- Witness for C4 at concrete inputs: the graceful cases return no PR
number, the gate closes on a missing number, and a run whose event file
is unparseable aborts with the parse error. -/
theorem pr_number_lookup_behavior_witness :
    get_pr_number_from_event .noFile = .ok none ∧
    get_pr_number_from_event (.json none) = .ok none ∧
    get_pr_number_from_event (.json (some ⟨some 5⟩)) = .ok (PullReq.mk (some 5)).number ∧
    get_pr_number_from_event (.badJson "Expecting value") = .error "Expecting value" ∧
    publishGate envBadJson.repo envBadJson.token none = none ∧
    main_run envBadJson exRaise httpOk = .error "Expecting value" := by
  have T := pr_number_lookup_behavior "Expecting value" ⟨some 5⟩ envBadJson exRaise httpOk
  exact ⟨T.1, T.2.1, T.2.2.1, T.2.2.2.1, T.2.2.2.2.1, T.2.2.2.2.2 rfl⟩

/-! ## Publisher and entry-point lemmas -/

/-- Warning lines a response-only HTTP collaborator makes the publisher
print. -/
def postLogs (http : Http) (r : String) (n : Int) (b : String) : List String :=
  match http (comment_url r n) b with
  | .resp st txt => if 300 ≤ st then [warn_line st txt] else []
  | .exnRaised _ => []

/-- On a response, the publisher returns normally, warning exactly on
status at least 300. -/
theorem post_pr_comment_resp (http : Http) (r : String) (n : Int) (t b : String)
    (st : Nat) (txt : String) (h : http (comment_url r n) b = .resp st txt) :
    post_pr_comment http r n t b = .ok (if 300 ≤ st then [warn_line st txt] else []) := by
  simp only [post_pr_comment, h]
  split <;> simp [*]

/-- On a raised request, the publisher propagates the exception. -/
theorem post_pr_comment_exn (http : Http) (r : String) (n : Int) (t b m : String)
    (h : http (comment_url r n) b = .exnRaised m) :
    post_pr_comment http r n t b = .error m := by
  simp only [post_pr_comment, h]

/-- Against a response-only collaborator the publisher never raises. -/
theorem post_pr_comment_eq_of_respOnly (http : Http) (hro : RespOnly http)
    (r : String) (n : Int) (t b : String) :
    post_pr_comment http r n t b = .ok (postLogs http r n b) := by
  unfold post_pr_comment postLogs
  cases hc : http (comment_url r n) b with
  | resp st txt =>
      dsimp only
      split <;> simp [*]
  | exnRaised m =>
      have hx := hro (comment_url r n) b
      rw [hc] at hx
      simp [HttpResult.isResp] at hx

/-- A normally terminating run's exit code is 1 exactly when the summed
checker failures are positive, whatever the HTTP collaborator did. -/
theorem exitCode_of_ok {env : Env} {ex : Exec} {http : Http} {r : RunResult}
    (h : main_run env ex http = .ok r) :
    r.exitCode = if 0 < total_failures env ex then 1 else 0 := by
  unfold main_run at h
  split at h
  · exact absurd h (by simp)
  · by_cases hf : get_changed_files ex (env.baseRefEnv.getD "main") = []
    · simp only [hf, eq_self_iff_true, if_true] at h
      rw [total_failures_of_empty hf]
      split at h
      · split at h
        · exact absurd h (by simp)
        · injection h with h2
          subst h2
          rfl
      · injection h with h2
        subst h2
        rfl
    · simp only [if_neg hf] at h
      split at h
      · split at h
        · exact absurd h (by simp)
        · injection h with h2
          subst h2
          rfl
      · injection h with h2
        subst h2
        rfl

/-- Against a response-only collaborator, the run's exit code depends
only on the event state and the checkers. -/
theorem exitCodeOf_respOnly {env : Env} {ex : Exec} {http : Http} (hro : RespOnly http) :
    exitCodeOf (main_run env ex http) =
      match get_pr_number_from_event env.event with
      | .error _ => none
      | .ok _ => some (if 0 < total_failures env ex then 1 else 0) := by
  unfold main_run
  cases hpr : get_pr_number_from_event env.event with
  | error m => rfl
  | ok pr =>
      by_cases hf : get_changed_files ex (env.baseRefEnv.getD "main") = []
      · simp only [hf, eq_self_iff_true, if_true]
        rw [total_failures_of_empty hf]
        cases hg : publishGate env.repo env.token pr with
        | none => rfl
        | some rtn =>
            obtain ⟨rr, rt, rn⟩ := rtn
            dsimp only
            rw [post_pr_comment_eq_of_respOnly http hro rr rn rt]
            rfl
      · simp only [if_neg hf]
        cases hg : publishGate env.repo env.token pr with
        | none => rfl
        | some rtn =>
            obtain ⟨rr, rt, rn⟩ := rtn
            dsimp only
            rw [post_pr_comment_eq_of_respOnly http hro rr rn rt]
            rfl

/-- A run with a parseable event file and a response-only collaborator
terminates normally. -/
theorem main_run_no_abort (env : Env) (ex : Exec) (http : Http) (hro : RespOnly http)
    (hev : ∀ m, env.event ≠ .badJson m) :
    exitCodeOf (main_run env ex http) ≠ none := by
  rw [exitCodeOf_respOnly hro]
  cases hevs : env.event with
  | noFile => simp [get_pr_number_from_event]
  | badJson m => exact absurd hevs (hev m)
  | json o => cases o <;> simp [get_pr_number_from_event]

/-- Two response-only collaborators yield the same exit code. -/
theorem exitCode_respOnly_irrel (env : Env) (ex : Exec) (http http2 : Http)
    (hro : RespOnly http) (hro2 : RespOnly http2) :
    exitCodeOf (main_run env ex http) = exitCodeOf (main_run env ex http2) := by
  rw [exitCodeOf_respOnly hro, exitCodeOf_respOnly hro2]

/-! ## Claim C1 -/

/-- An HTTP collaborator answering every request with a warning-level
response. -/
def httpWarn : Http := fun _ _ => .resp 500 "oops"

/-- Environment with full credentials and a PR number, used with an
oracle whose diff fails. -/
def envEmptyPost : Env :=
  ⟨some "octo/repo", none, some "tok", .json (some ⟨some 1⟩), false, false⟩

/-- Oracle whose diff command exits non-zero: no changed files. -/
def exDiffErr : Exec := fun cmd =>
  if cmd = diff_cmd "main" then .completed 1 "" "" else .completed 0 "" ""

/-- HTTP collaborator that raises on every request. -/
def httpConnErr : Http := fun _ _ => .exnRaised "ConnectionError"

/-- Counterexample for C1: with an empty ChangedFileSet but full
credentials, a raised comment POST aborts the run with an uncaught
exception, so the process does not exit 0 — the posting outcome does
change the exit status. -/
theorem exit_code_post_exception_cex :
    get_changed_files exDiffErr (envEmptyPost.baseRefEnv.getD "main") = [] ∧
    main_run envEmptyPost exDiffErr httpConnErr = .error "ConnectionError" ∧
    exitCodeOf (main_run envEmptyPost exDiffErr httpConnErr) ≠ some 0 :=
  ⟨by decide, rfl, by decide⟩

/-- Claim C1 (amended): on every run that terminates normally (the event
file parses and the comment POST returns a response), the exit code is 1
iff the checkers' summed failure count is positive, and 0 whenever the
ChangedFileSet is empty; the HTTP response received when posting never
changes the exit code. -/
theorem exit_code_characterization (env : Env) (ex : Exec) (http http2 : Http) (r : RunResult) :
    (main_run env ex http = .ok r →
      ((r.exitCode = 1 ↔ 0 < total_failures env ex) ∧
       (get_changed_files ex (env.baseRefEnv.getD "main") = [] → r.exitCode = 0))) ∧
    (RespOnly http → RespOnly http2 →
      exitCodeOf (main_run env ex http) = exitCodeOf (main_run env ex http2)) := by
  constructor
  · intro h
    have he := exitCode_of_ok h
    constructor
    · rw [he]
      split <;> simp [*]
    · intro hf
      rw [he, total_failures_of_empty hf]
      norm_num
  · exact exitCode_respOnly_irrel env ex http http2

/-- Witness for C1 at a concrete empty-diff run: the completed run exits
0, consistently with zero failures, and a warning response leaves the
exit code unchanged. -/
theorem exit_code_characterization_witness :
    ((⟨0, [skip_message]⟩ : RunResult).exitCode = 1 ↔ 0 < total_failures envEmptyPost exDiffErr) ∧
    (⟨0, [skip_message]⟩ : RunResult).exitCode = 0 ∧
    exitCodeOf (main_run envEmptyPost exDiffErr httpOk) =
      exitCodeOf (main_run envEmptyPost exDiffErr httpWarn) :=
  ⟨((exit_code_characterization envEmptyPost exDiffErr httpOk httpWarn ⟨0, [skip_message]⟩).1 rfl).1,
   ((exit_code_characterization envEmptyPost exDiffErr httpOk httpWarn ⟨0, [skip_message]⟩).1 rfl).2
     (by decide),
   (exit_code_characterization envEmptyPost exDiffErr httpOk httpWarn ⟨0, [skip_message]⟩).2
     (fun _ _ => rfl) (fun _ _ => rfl)⟩

/-! ## Claim C5 -/

/-- Environment with full credentials whose diff yields one Python file. -/
def envOnePy : Env :=
  ⟨some "octo/repo", none, some "tok", .json (some ⟨some 7⟩), false, false⟩

/-- Oracle whose diff yields a.py and on which every tool succeeds. -/
def exDiffOne : Exec := fun cmd =>
  if cmd = diff_cmd "main" then .completed 0 "a.py" "" else .completed 0 "" ""

/-- HTTP collaborator raising a timeout on every request. -/
def httpReadTimeout : Http := fun _ _ => .exnRaised "ReadTimeout"

/-- Counterexample for C5: a request-level exception from the comment
POST is not caught: with zero check failures the run aborts instead of
completing with exit code 0, so the failure is re-raised and does abort
the run. -/
theorem post_exception_aborts_run_cex :
    total_failures envOnePy exDiffOne = 0 ∧
    main_run envOnePy exDiffOne httpReadTimeout = .error "ReadTimeout" ∧
    exitCodeOf (main_run envOnePy exDiffOne httpReadTimeout) = none :=
  ⟨by decide, rfl, rfl⟩

/-- Claim C5 (amended): a non-2xx/3xx response to the comment POST is
logged as a warning and never aborts the run nor changes the exit code;
but a request-level exception is not caught — it propagates out of the
publisher and aborts the run. -/
theorem post_comment_error_handling (http : Http) (repo token body txt m : String)
    (pr : Int) (st : Nat) (env : Env) (ex : Exec) :
    (http (comment_url repo pr) body = .resp st txt →
      post_pr_comment http repo pr token body =
        .ok (if 300 ≤ st then [warn_line st txt] else [])) ∧
    (http (comment_url repo pr) body = .exnRaised m →
      post_pr_comment http repo pr token body = .error m) ∧
    (RespOnly http → (∀ m2, env.event ≠ .badJson m2) →
      exitCodeOf (main_run env ex http) ≠ none) ∧
    (RespOnly http →
      exitCodeOf (main_run env ex http) = exitCodeOf (main_run env ex httpOk)) :=
  ⟨post_pr_comment_resp http repo pr token body st txt,
   post_pr_comment_exn http repo pr token body m,
   main_run_no_abort env ex http,
   fun hro => exitCode_respOnly_irrel env ex http httpOk hro (fun _ _ => rfl)⟩

/-- Witness for C5 at concrete runs: a 500 response produces the warning
log, completes the run, and leaves the exit code as with a clean 201;
the raising collaborator propagates its exception. -/
theorem post_comment_error_handling_witness :
    post_pr_comment httpWarn "octo/repo" 7 "tok" "hello" =
      .ok (if 300 ≤ 500 then [warn_line 500 "oops"] else []) ∧
    post_pr_comment httpReadTimeout "octo/repo" 7 "tok" "hello" = .error "ReadTimeout" ∧
    exitCodeOf (main_run envOnePy exDiffOne httpWarn) ≠ none ∧
    exitCodeOf (main_run envOnePy exDiffOne httpWarn) =
      exitCodeOf (main_run envOnePy exDiffOne httpOk) :=
  ⟨(post_comment_error_handling httpWarn "octo/repo" "tok" "hello" "oops" "x" 7 500
      envOnePy exDiffOne).1 rfl,
   (post_comment_error_handling httpReadTimeout "octo/repo" "tok" "hello" "x" "ReadTimeout" 7 500
      envOnePy exDiffOne).2.1 rfl,
   (post_comment_error_handling httpWarn "octo/repo" "tok" "hello" "oops" "x" 7 500
      envOnePy exDiffOne).2.2.1 (fun _ _ => rfl) (fun m2 h => by cases h),
   (post_comment_error_handling httpWarn "octo/repo" "tok" "hello" "oops" "x" 7 500
      envOnePy exDiffOne).2.2.2 (fun _ _ => rfl)⟩
